import Mathlib

/-!
Verification of the gateway SDK core (gateway.go, mqtt_connector.go, thing.go):
a shallow embedding of the thing registry, the reflection-based action
dispatcher, the type-coercion function, the mqtt publish path and the
registration-supervisor loop, together with theorems settling the spec claims.

Modelling conventions:
- Go dynamic values held in an `interface` cell (JSON-decoded envelope entries,
  declared defaults, conversion results) are the inductive `GoVal`.  JSON
  numbers decode to Go `float64`; their payload is modelled as a rational
  number, which is exact on every value the claims mention (float64 values are
  dyadic rationals).
- `reflect.Type` is the inductive `ReflType`: a kind tag, the `String()`
  rendering, and the element types (`Elem` is defined exactly for array, chan,
  map, pointer and slice kinds, and panics otherwise, as in package reflect).
- A method set obtained through `reflect.Type.MethodByName` is an association
  list from method name to signature; package reflect exposes only exported
  method names, so the list never holds a lower-case-initial name.
- Stateful Go code is modelled by explicit results: `CallAction` returns a
  `DispatchOutcome` (the single invocation performed, the log line after which
  the message was dropped, or the runtime panic), `Register` returns the new
  registry plus its observable effects, `Publish` returns the send effect and
  the returned error.  The source never mutates the registry inside
  `CallAction`, so no registry is returned there.
- Go machine integers are `Int` with explicit reduction modulo 2^w at the
  points where the source casts; float-to-integer casts truncate toward zero
  (out-of-range casts are not specified by Go and are modelled as wrapping;
  no claim exercises that corner).
-/

namespace DevIoT

/-- Kinds of Go types, mirroring the `reflect.Kind` values this code consults. -/
inductive GoKind where
  | invalid
  | bool_
  | int_
  | int8
  | int16
  | int32
  | int64
  | uint_
  | uint8
  | uint16
  | uint32
  | uint64
  | float32
  | float64
  | string_
  | ptr
  | slice_
  | map_
  | chan_
  | array_
  | struct_
  | interface_
  | func_
deriving DecidableEq

/-- A `reflect.Type`: its kind, its `String()` rendering, and, when the Go
type has an element type (pointer, slice, map, chan, array), that element. -/
inductive ReflType where
  | base (kind : GoKind) (str : String)
  | container (kind : GoKind) (str : String) (elem : ReflType)
deriving DecidableEq

/-- Kind projection of a reflected type. -/
def ReflType.kind : ReflType → GoKind
  | .base k _ => k
  | .container k _ _ => k

/-- The `String()` rendering of a reflected type. -/
def ReflType.str : ReflType → String
  | .base _ s => s
  | .container _ s _ => s

/-- Go runtime panics that the modelled code can raise. -/
inductive PanicReason where
  | interfaceConversion
  | indexOutOfRange
  | zeroValueArg
  | callTypeMismatch
  | elemOfNonContainer
deriving DecidableEq

/-- Kinds for which `reflect.Type.Elem` is defined (array, chan, map, pointer,
slice); on any other kind `Elem` panics. -/
def elemKinds (k : GoKind) : Bool :=
  match k with
  | .array_ | .chan_ | .map_ | .ptr | .slice_ => true
  | _ => false

/-- reflect.Type.Elem: the element type, or a panic on a non-container kind;
the panic condition is driven by the kind alone, as in package reflect. -/
def typeElem (t : ReflType) : Except PanicReason ReflType :=
  if elemKinds t.kind then
    match t with
    | .container _ _ e => .ok e
    | .base _ _ => .ok (.base .invalid "")
  else .error .elemOfNonContainer

/-- A Go dynamic (`interface`) value as it occurs in this code: JSON-decoded
envelope entries, declared parameter defaults, and conversion results.  The
numeric payload of a float value is an exact rational. -/
inductive GoVal where
  | goInt (k : GoKind) (n : Int)
  | goFloat (k : GoKind) (q : ℚ)
  | goString (s : String)
  | goBool (b : Bool)
  | goNil
deriving DecidableEq

/-- Dynamic kind of a Go value, as `reflect.TypeOf` reports it (`goNil` is the
nil interface, whose reflected type is invalid). -/
def goKindOf : GoVal → GoKind
  | .goInt k _ => k
  | .goFloat k _ => k
  | .goString _ => .string_
  | .goBool _ => .bool_
  | .goNil => .invalid

/-- A `reflect.Value` slot of the argument array in `CallAction`: the zero
(invalid) Value, the receiver value, or an ordinary dynamic value. -/
inductive RVal where
  | invalid
  | recv (t : ReflType)
  | val (v : GoVal)
deriving DecidableEq

/-- reflect.ValueOf: the nil interface yields the zero (invalid) Value. -/
def rvalOf (v : GoVal) : RVal :=
  match v with
  | .goNil => .invalid
  | v => .val v

/-- Whether a reflect.Value slot is the zero Value. -/
def RVal.isInvalid : RVal → Bool
  | .invalid => true
  | _ => false

/-- Truncation of a rational toward zero, the rounding Go float-to-integer
conversions use. -/
def truncRat (q : ℚ) : Int :=
  if q.num < 0 then -(((-q.num).toNat / q.den : Nat) : Int)
  else ((q.num.toNat / q.den : Nat) : Int)

/-- Reduction of an integer into the signed w-bit range (two of the
complement wrap; Go leaves out-of-range float casts unspecified and every
claim stays in range). -/
def wrapSigned (w : Nat) (n : Int) : Int :=
  Int.bmod n (2 ^ w)

/-- Reduction of an integer into the unsigned w-bit range. -/
def wrapUnsigned (w : Nat) (n : Int) : Int :=
  Int.emod n (2 ^ w)

/-- Rendering of the fractional digits of a rational, with fuel; float64
values have power-of-two denominators, so 17 digits always terminate the
expansion exactly. -/
def fracDigitsAux : Nat → Nat → Nat → List Char
  | 0, _, _ => []
  | _ + 1, 0, _ => []
  | fuel + 1, n, d =>
    let n10 := n * 10
    Char.ofNat (48 + n10 / d) :: fracDigitsAux fuel (n10 % d) d

/-- fmt rendering of a float64 with the %v (hence %g) verb: an integral value
prints with no decimal point, e.g. 7.0 prints as 7.  Non-integral values are
rendered as a terminating decimal; the %g switch to exponent notation on very
large magnitudes is not modelled (no claim mentions such a value). -/
def formatGoFloat (q : ℚ) : String :=
  if q.den = 1 then toString q.num
  else
    let sign := if q.num < 0 then "-" else ""
    let a := q.num.natAbs
    sign ++ toString (a / q.den) ++ "." ++ ⟨fracDigitsAux 17 (a % q.den) q.den⟩

/-- fmt.Sprintf with the %v verb on a dynamic value. -/
def goSprintV : GoVal → String
  | .goInt _ n => toString n
  | .goFloat _ q => formatGoFloat q
  | .goString s => s
  | .goBool b => if b then "true" else "false"
  | .goNil => "<nil>"

/-- Errors produced by `convert` (gateway.go:269-304): the recovered panic of a
failed `value.(float64)` type assertion, or the explicit
"expected type: %v, got %v" error of the default branch. -/
inductive ConvError where
  | typeAssertion (expected : GoKind) (got : GoKind)
  | unsupported (target : ReflType) (got : GoKind)
deriving DecidableEq

/-- The `value.(float64)` type assertion: succeeds exactly on a value whose
dynamic type is float64; any other value panics, which the deferred recover in
`convert` turns into the returned error. -/
def asF64 (v : GoVal) : Except ConvError ℚ :=
  match v with
  | .goFloat .float64 q => .ok q
  | v => .error (.typeAssertion .float64 (goKindOf v))

/-- convert (gateway.go:269-304): switch on the target kind; every integer and
float case asserts the value to float64 and casts; the string case formats the
value with %v; every other kind falls through to the error return.  The
declared property type `param` is accepted and never consulted, exactly as in
the source. -/
def convert (param : Int) (target : ReflType) (value : GoVal) : Except ConvError GoVal :=
  match target.kind with
  | .int_ => (asF64 value).map fun q => .goInt .int_ (wrapSigned 64 (truncRat q))
  | .int8 => (asF64 value).map fun q => .goInt .int8 (wrapSigned 8 (truncRat q))
  | .int16 => (asF64 value).map fun q => .goInt .int16 (wrapSigned 16 (truncRat q))
  | .int32 => (asF64 value).map fun q => .goInt .int32 (wrapSigned 32 (truncRat q))
  | .int64 => (asF64 value).map fun q => .goInt .int64 (wrapSigned 64 (truncRat q))
  | .uint_ => (asF64 value).map fun q => .goInt .uint_ (wrapUnsigned 64 (truncRat q))
  | .uint8 => (asF64 value).map fun q => .goInt .uint8 (wrapUnsigned 8 (truncRat q))
  | .uint16 => (asF64 value).map fun q => .goInt .uint16 (wrapUnsigned 16 (truncRat q))
  | .uint32 => (asF64 value).map fun q => .goInt .uint32 (wrapUnsigned 32 (truncRat q))
  | .uint64 => (asF64 value).map fun q => .goInt .uint64 (wrapUnsigned 64 (truncRat q))
  | .float32 => (asF64 value).map fun q => .goFloat .float32 q
  | .float64 => (asF64 value).map fun q => .goFloat .float64 q
  | .string_ => .ok (.goString (goSprintV value))
  | _ => .error (.unsupported target (goKindOf value))

/-- The target kinds for which `convert` has a case. -/
def supportedConvertKind (k : GoKind) : Bool :=
  match k with
  | .int_ | .int8 | .int16 | .int32 | .int64 => true
  | .uint_ | .uint8 | .uint16 | .uint32 | .uint64 => true
  | .float32 | .float64 | .string_ => true
  | _ => false

/-- PropertyTypeInt (thing.go): number type tag of a property. -/
def PropertyTypeInt : Int := 0

/-- PropertyTypeString (thing.go): string type tag of a property. -/
def PropertyTypeString : Int := 1

/-- PropertyTypeBool (thing.go): boolean type tag of a property. -/
def PropertyTypeBool : Int := 2

/-- PropertyTypeColor (thing.go): color type tag of a property. -/
def PropertyTypeColor : Int := 3

/-- Property (thing.go): a property model; `value` is the declared default
(`goNil` when the Go interface field is nil). -/
structure Property where
  name : String
  type : Int
  value : GoVal := .goNil
  range : List GoVal := []
  unit : String := ""
  description : String := ""
deriving DecidableEq

/-- Action (thing.go): a named action with an ordered parameter list. -/
structure Action where
  name : String := ""
  parameters : List Property := []
deriving DecidableEq

/-- Thing (thing.go): a thing model. -/
structure Thing where
  id : String
  name : String
  kind : String := ""
  actions : List Action := []
  properties : List Property := []
deriving DecidableEq

/-- Action.AddParameter (thing.go): append a parameter. -/
def Action.AddParameter (a : Action) (p : Property) : Action :=
  { a with parameters := a.parameters ++ [p] }

/-- Thing.AddAction (thing.go): append an action. -/
def Thing.AddAction (t : Thing) (a : Action) : Thing :=
  { t with actions := t.actions ++ [a] }

/-- Thing.AddProperty (thing.go): append a property. -/
def Thing.AddProperty (t : Thing) (p : Property) : Thing :=
  { t with properties := t.properties ++ [p] }

/-- Thing.FindAction (thing.go:63-70): first action with the given name. -/
def Thing.FindAction (t : Thing) (name : String) : Option Action :=
  t.actions.find? fun a => a.name == name

/-- Signature of a reflected method: `ins` lists the parameter types including
the receiver at index 0, so `ins.length` is `Type.NumIn()` and `ins[i]` is
`Type.In(i)`. -/
structure GoMethod where
  ins : List ReflType
deriving DecidableEq

/-- An Instance (thing.go:15-17) as the dispatcher sees it: its reflected
dynamic type, the Init body (mutation of the Thing through the pointer is
modelled as a function on Thing), and the reflect-visible method set; package
reflect exposes only exported (capitalised) method names, and
`MethodByName` is an exact, case-sensitive lookup in that set. -/
structure Instance where
  typeRepr : ReflType
  initFn : Thing → Thing
  methods : List (String × GoMethod)

/-- reflect.Type.MethodByName on the dynamic type of an instance. -/
def Instance.MethodByName (inst : Instance) (name : String) : Option GoMethod :=
  inst.methods.lookup name

/-- wrapper (gateway.go:58-61): a registered (Thing, Instance) pair. -/
structure wrapper where
  thing : Thing
  inst : Instance

/-- The `Things` map of the gateway, keyed by thing id; modelled as an
association list with unique keys (Go map lookups and inserts only). -/
abbrev Registry := List (String × wrapper)

/-- An inbound command envelope: the JSON-decoded `map[string]interface\x7b\x7d`. -/
abbrev Envelope := List (String × GoVal)

/-- Log lines `CallAction` can emit before dropping a message; the printf
text is abstracted to a tag carrying the reported data. -/
inductive LogMsg where
  | idNotAvailable
  | actionNotAvailable
  | methodNotAvailable
  | arityMismatch (numIn : Nat) (nparams : Nat)
  | conversion (e : ConvError)
deriving DecidableEq

/-- Observable outcome of one dispatch: the single method invocation
performed (with the full argument array, receiver included), the log line
after which the message was dropped, or a runtime panic. -/
inductive DispatchOutcome where
  | invoked (method : String) (args : List RVal)
  | dropped (msg : LogMsg)
  | panicked (reason : PanicReason)
deriving DecidableEq

/-- Whether the dispatch dropped the message after only logging. -/
def DispatchOutcome.isDropped : DispatchOutcome → Bool
  | .dropped _ => true
  | _ => false

/-- Whether the dispatch invoked a method. -/
def DispatchOutcome.isInvoked : DispatchOutcome → Bool
  | .invoked _ _ => true
  | _ => false

/-- Early exit of the argument-binding loop (gateway.go:245-259): a conversion
error (logged, message dropped) or the out-of-range slice index panic. -/
inductive BindStop where
  | convError (e : ConvError)
  | outOfRange
deriving DecidableEq

/-- One iteration of the binding loop (gateway.go:245-259) at index i
(1 ≤ i < NumIn): reads `actionDef.Parameters[i-1]` (panicking when i-1 is out
of range, as Go slice indexing does), then binds the declared default
verbatim when the envelope lacks the parameter name, and otherwise converts
the envelope value to `method.Type.In(i)`. -/
def bindArg (params : List Property) (m : GoMethod) (data : Envelope) (i : Nat) :
    Except BindStop RVal :=
  match params.get? (i - 1) with
  | none => .error .outOfRange
  | some param =>
    match data.lookup param.name with
    | none => .ok (rvalOf param.value)
    | some v =>
      match convert param.type (m.ins.getD i (.base .invalid "")) v with
      | .error e => .error (.convError e)
      | .ok v2 => .ok (.val v2)

/-- Compatibility of one bound argument with the parameter type expected by
reflect.Value.Call: the receiver slot must carry the receiver type, and a
dynamic value must have the parameter kind (an interface parameter accepts
any value). -/
def argOk (t : ReflType) (a : RVal) : Bool :=
  match a with
  | .invalid => false
  | .recv rt => rt == t
  | .val v => t.kind == .interface_ || goKindOf v == t.kind

/-- method.Func.Call (gateway.go:266): panics on a zero reflect.Value argument
or an argument whose type does not fit the signature; otherwise the method
runs, which the model records as the invocation outcome. -/
def goCall (name : String) (m : GoMethod) (args : List RVal) : DispatchOutcome :=
  if args.any RVal.isInvalid then .panicked .zeroValueArg
  else if (List.zip args m.ins).all (fun p => argOk p.2 p.1) then .invoked name args
  else .panicked .callTypeMismatch

/-- Steps of `CallAction` from the arity check on (gateway.go:237-266): reject
a method whose NumIn is neither len(parameters)+1 nor len(parameters)+2, run
the binding loop over i = 1 .. NumIn-1, then the payload step (only a method
with NumIn = len(parameters)+2 consults it, and the binding loop has already
panicked on such a method before this point), and finally Call. -/
def dispatchWithMethod (act : String) (w : wrapper) (actionDef : Action) (m : GoMethod)
    (data : Envelope) : DispatchOutcome :=
  if m.ins.length ≠ actionDef.parameters.length + 1 ∧
      m.ins.length ≠ actionDef.parameters.length + 2 then
    .dropped (.arityMismatch m.ins.length actionDef.parameters.length)
  else
    match (List.range' 1 (m.ins.length - 1)).mapM (bindArg actionDef.parameters m data) with
    | .error (.convError e) => .dropped (.conversion e)
    | .error .outOfRange => .panicked .indexOutOfRange
    | .ok tailArgs =>
      let args := RVal.recv w.inst.typeRepr :: tailArgs
      let args2 :=
        if m.ins.length = actionDef.parameters.length + 2 then
          match data.lookup "payload" with
          | some p => args.set (args.length - 1) (.val p)
          | none => args
        else args
      goCall act m args2

/-- Steps of `CallAction` after the action name is a string (gateway.go:225-235):
resolve the Action on the Thing, then the method on the Instance. -/
def dispatchResolved (act : String) (w : wrapper) (data : Envelope) : DispatchOutcome :=
  match w.thing.FindAction act with
  | none => .dropped .actionNotAvailable
  | some actionDef =>
    match w.inst.MethodByName act with
    | none => .dropped .methodNotAvailable
    | some m => dispatchWithMethod act w actionDef m data

/-- Steps of `CallAction` after the thing is found (gateway.go:220-224): read
the action key; its value passes through the `action.(string)` type
assertion, which panics on a non-string value. -/
def dispatchToThing (w : wrapper) (data : Envelope) : DispatchOutcome :=
  match data.lookup "action" with
  | none => .dropped .actionNotAvailable
  | some (.goString act) => dispatchResolved act w data
  | some _ => .panicked .interfaceConversion

/-- Resolution of the target id (gateway.go:206-209): the id key, else the
name key. -/
def resolveId (data : Envelope) : Option GoVal :=
  match data.lookup "id" with
  | some v => some v
  | none => data.lookup "name"

/-- CallAction (gateway.go:205-267): resolve the id (the `id.(string)` type
assertion panics on a non-string value), look the thing up, and hand over to
the action/method resolution stages.  The function never writes to the
registry and returns no error; all its effects are in the outcome. -/
def CallAction (things : Registry) (data : Envelope) : DispatchOutcome :=
  match resolveId data with
  | none => .dropped .idNotAvailable
  | some (.goString idStr) =>
    match things.lookup idStr with
    | none => .dropped .idNotAvailable
    | some w => dispatchToThing w data
  | some _ => .panicked .interfaceConversion

/-- Notices `Register` logs (gateway.go:158-172). -/
inductive RegLog where
  | alreadyRegistered (id : String)
  | registered (id name kind : String)
deriving DecidableEq

/-- Observable result of a completed `Register` call: the registry afterwards,
the notice logged, and whether `instance.Init` ran. -/
structure RegisterResult where
  things : Registry
  log : RegLog
  initCalled : Bool

/-- Lower-casing of a string (strings.ToLower; ASCII suffices for Go type
names here). -/
def toLowerStr (s : String) : String :=
  ⟨s.data.map Char.toLower⟩

/-- The segment after the last dot: `strings.Split(s, ".")` followed by
taking the last part. -/
def afterLastDot (s : String) : String :=
  ⟨(s.data.reverse.takeWhile fun c => c ≠ '.').reverse⟩

/-- Register (gateway.go:158-172): a duplicate id only logs a notice and
leaves everything untouched; otherwise the kind tag is derived from the
instance dynamic type through `Elem` (a panic exactly when `Elem` is
undefined for the type kind), an empty Thing is built, `Init` populates it,
and the pair is stored. -/
def Register (things : Registry) (id name : String) (inst : Instance) :
    Except PanicReason RegisterResult :=
  match things.lookup id with
  | some _ => .ok ⟨things, .alreadyRegistered id, false⟩
  | none =>
    match typeElem inst.typeRepr with
    | .error p => .error p
    | .ok e =>
      let kind := afterLastDot (toLowerStr e.str)
      let t0 : Thing := { id := id, name := name, kind := kind, actions := [], properties := [] }
      let t := inst.initFn t0
      .ok ⟨things ++ [(id, ⟨t, inst⟩)], .registered id name kind, true⟩

/-- GatewayModeHttpPull (gateway.go:50). -/
def GatewayModeHttpPull : Int := 0

/-- GatewayModeHttpPush (gateway.go:53). -/
def GatewayModeHttpPush : Int := 1

/-- GatewayModeMqtt (gateway.go:56). -/
def GatewayModeMqtt : Int := 2

/-- Gateway (gateway.go:33-47); the logger, the connector back-pointer and the
atomic registered flag live outside the pure state. -/
structure Gateway where
  Name : String
  Kind : String
  Host : String
  Port : Int
  Data : String
  Action : String
  Account : String
  Mode : Int
  Things : Registry
  deviotServer : String

/-- The state of the paho mqtt client the connector consults: whether the
connection is currently up, and the error the publish token reports after
Wait. -/
structure MqttClientState where
  connected : Bool
  publishError : Option String

/-- MqttConnector (mqtt_connector.go:14-20); `client` is `none` before Start
creates the client. -/
structure MqttConnector where
  DataTopic : String
  ActionTopic : String
  connectorServer : String
  client : Option MqttClientState

/-- The name sanitisation in NewGateway (gateway.go:65):
strings.Replace(name, "-", "_", -1), i.e. every dash becomes an underscore. -/
def sanitizeGatewayName (s : String) : String :=
  ⟨s.data.map fun c => if c = '-' then '_' else c⟩

/-- The topic namespace (mqtt_connector.go:42-45): the account with every @
removed, and "_" when that leaves the empty string. -/
def accountNamespace (account : String) : String :=
  let ns : String := ⟨account.data.filter fun c => c ≠ '@'⟩
  if ns = "" then "_" else ns

/-- NewMqttConnector (mqtt_connector.go:25-65).  The url/host/port parsing of
`connectorServer` (net/url, net.SplitHostPort, strconv) is an external-library
boundary and is abstracted into the already-parsed `host` and `port` inputs;
the topic derivation and the writes back into the gateway are modelled
exactly. -/
def NewMqttConnector (g : Gateway) (connectorServer host : String) (port : Int) :
    Gateway × MqttConnector :=
  let ns := accountNamespace g.Account
  let dataTopic := "/deviot/" ++ ns ++ "/" ++ g.Name ++ "/data"
  let actionTopic := "/deviot/" ++ ns ++ "/" ++ g.Name ++ "/action"
  ({ g with Host := host, Port := port, Mode := GatewayModeMqtt,
            Data := dataTopic, Action := actionTopic },
   { DataTopic := dataTopic, ActionTopic := actionTopic,
     connectorServer := connectorServer, client := none })

/-- The opts handling in NewGateway (gateway.go:76-81): a `kind` entry
overrides the default kind through the `kind.(string)` type assertion, which
panics on a non-string value. -/
def applyKindOpt (g : Gateway) (opts : Option Envelope) : Except PanicReason Gateway :=
  match opts with
  | none => .ok g
  | some o =>
    match o.lookup "kind" with
    | none => .ok g
    | some (.goString k) => .ok { g with Kind := k }
    | some _ => .error .interfaceConversion

/-- NewGateway (gateway.go:64-88): sanitise the name, build the gateway with
its defaults, apply the kind option, and let NewMqttConnector fill in
host/port/mode/topics. -/
def NewGateway (name deviotServer connectorServer account : String)
    (opts : Option Envelope) (host : String) (port : Int) :
    Except PanicReason (Gateway × MqttConnector) :=
  let g : Gateway := { Name := sanitizeGatewayName name, Kind := "device",
                       Host := "", Port := 0, Data := "", Action := "",
                       Account := account, Mode := GatewayModeMqtt,
                       Things := [], deviotServer := deviotServer }
  match applyKindOpt g opts with
  | .error p => .error p
  | .ok g2 => .ok (NewMqttConnector g2 connectorServer host port)

/-- The static part of the registration document built once per heartbeat
(gateway.go:97-105); the per-iteration sensors snapshot is appended inside
the loop and carries no gateway identity field. -/
def buildRegistrationModel (g : Gateway) : List (String × GoVal) :=
  [("name", .goString g.Name), ("kind", .goString g.Kind),
   ("mode", .goInt .int_ g.Mode), ("owner", .goString g.Account),
   ("host", .goString g.Host), ("port", .goInt .int_ g.Port),
   ("data", .goString g.Data), ("action", .goString g.Action)]

/-- JSON value rendering for the marshalled telemetry payload (escaping of
special characters inside strings is not modelled; no claim depends on the
marshalled bytes). -/
def jsonRenderVal : GoVal → String
  | .goString s => "\"" ++ s ++ "\""
  | .goBool b => if b then "true" else "false"
  | .goInt _ n => toString n
  | .goFloat _ q => formatGoFloat q
  | .goNil => "null"

/-- Insertion into a key-sorted association list. -/
def insertByKey (p : String × GoVal) : List (String × GoVal) → List (String × GoVal)
  | [] => [p]
  | q :: rest => if p.1 < q.1 then p :: q :: rest else q :: insertByKey p rest

/-- Key-sorting of an association list (encoding/json marshals map keys in
sorted order). -/
def sortByKey : List (String × GoVal) → List (String × GoVal)
  | [] => []
  | p :: rest => insertByKey p (sortByKey rest)

/-- json.Marshal of a `map[string]interface\x7b\x7d` telemetry value. -/
def goJsonMarshal (data : Envelope) : String :=
  let fields := (sortByKey data).map fun p => "\"" ++ p.1 ++ "\":" ++ jsonRenderVal p.2
  "\x7b" ++ String.intercalate "," fields ++ "\x7d"

/-- The effect of one Publish call: a message sent on a topic, or nothing. -/
inductive PublishEffect where
  | sent (topic : String) (payload : String)
  | noSend
deriving DecidableEq

/-- MqttConnector.Publish (mqtt_connector.go:93-101): only with an existing,
currently connected client is the payload marshalled and sent (returning the
token error after Wait); otherwise nothing is sent and nil is returned. -/
def MqttConnector.Publish (c : MqttConnector) (data : Envelope) :
    PublishEffect × Option String :=
  match c.client with
  | some cl =>
    if cl.connected then (.sent c.DataTopic (goJsonMarshal data), cl.publishError)
    else (.noSend, none)
  | none => (.noSend, none)

/-- Outcome of one heartbeat POST (gateway.go:117-121): a transport-level
error from client.Do, or a response with a status code. -/
inductive HeartbeatResult where
  | transportError
  | response (status : Int)
deriving DecidableEq

/-- One iteration of the registration loop body (gateway.go:123-143), given
the `first` flag and the registered state read at the start of the iteration;
returns (whether a line was logged, the registered state stored). -/
def heartbeatStep (first registered : Bool) (r : HeartbeatResult) : Bool × Bool :=
  match r with
  | .transportError => (first || registered, false)
  | .response st =>
    if 200 ≤ st ∧ st < 400 then (first || !registered, true)
    else (first || registered, false)

/-- The registration loop run over a list of heartbeat outcomes from a given
(first, registered) state, yielding per iteration the pair (logged,
registered-after). -/
def heartbeatRunFrom (first registered : Bool) : List HeartbeatResult → List (Bool × Bool)
  | [] => []
  | r :: rest =>
    let s := heartbeatStep first registered r
    s :: heartbeatRunFrom false s.2 rest

/-- The registration loop from process start: `first` is true and the atomic
flag starts at 0 (unregistered). -/
def heartbeatRun (rs : List HeartbeatResult) : List (Bool × Bool) :=
  heartbeatRunFrom true false rs

/-- The registered state entering iteration i of a run (false before the
first iteration). -/
def regBefore (rs : List HeartbeatResult) (i : Nat) : Bool :=
  if i = 0 then false else ((heartbeatRun rs).getD (i - 1) (false, false)).2


/-- The Go `int` type. -/
def intT : ReflType := .base .int_ "int"

/-- The Go `int32` type. -/
def int32T : ReflType := .base .int32 "int32"

/-- The Go `string` type. -/
def stringT : ReflType := .base .string_ "string"

/-- The Go `bool` type. -/
def boolT : ReflType := .base .bool_ "bool"

/-- The struct type of the demo lamp handler. -/
def lampStructT : ReflType := .base .struct_ "main.lamp"

/-- The pointer type of the demo lamp handler, the usual dynamic type of a
registered instance. -/
def lampPtrT : ReflType := .container .ptr "*main.lamp" lampStructT

/-- The empty interface type of a raw payload parameter. -/
def interfaceT : ReflType := .base .interface_ "interface \x7b\x7d"

/-- The parameter of the end-to-end scenario:
name "on", type Bool, default false. -/
def onProperty : Property :=
  { name := "on", type := PropertyTypeBool, value := .goBool false }

/-- The lamp instance exactly as claim C1 states it: the action is declared
under the name "setOn" while the operation is the exported method "SetOn"
taking one bool parameter after the receiver. -/
def lampInstanceOrig : Instance :=
  { typeRepr := lampPtrT,
    initFn := fun t => t.AddAction { name := "setOn", parameters := [onProperty] },
    methods := [("SetOn", ⟨[lampPtrT, boolT]⟩)] }

/-- The registered lamp thing of claim C1 (action named "setOn"). -/
def lampThingOrig : Thing :=
  { id := "lamp1", name := "lamp1", kind := "lamp",
    actions := [{ name := "setOn", parameters := [onProperty] }] }

/-- The registry entry of claim C1. -/
def lampWrapperOrig : wrapper :=
  { thing := lampThingOrig, inst := lampInstanceOrig }

/-- The registry of claim C1: the lamp registered under id "lamp1". -/
def lampRegistryOrig : Registry := [("lamp1", lampWrapperOrig)]

/-- The lamp instance with the action declared under the exported operation
name "SetOn", the only name reflect method lookup can resolve. -/
def lampInstanceAm : Instance :=
  { typeRepr := lampPtrT,
    initFn := fun t => t.AddAction { name := "SetOn", parameters := [onProperty] },
    methods := [("SetOn", ⟨[lampPtrT, boolT]⟩)] }

/-- The lamp thing with the action named "SetOn". -/
def lampThingAm : Thing :=
  { id := "lamp1", name := "lamp1", kind := "lamp",
    actions := [{ name := "SetOn", parameters := [onProperty] }] }

/-- The registry with the "SetOn" lamp registered under id "lamp1". -/
def lampRegistryAm : Registry := [("lamp1", { thing := lampThingAm, inst := lampInstanceAm })]

/-- A numeric parameter: name "level", type Int, default 0. -/
def levelProperty : Property :=
  { name := "level", type := PropertyTypeInt, value := .goInt .int_ 0 }

/-- A lamp with an exported SetLevel(int32) operation. -/
def lamp2Instance : Instance :=
  { typeRepr := lampPtrT,
    initFn := fun t => t.AddAction { name := "SetLevel", parameters := [levelProperty] },
    methods := [("SetLevel", ⟨[lampPtrT, int32T]⟩)] }

/-- The thing for the SetLevel lamp. -/
def lamp2Thing : Thing :=
  { id := "lamp2", name := "lamp2", kind := "lamp",
    actions := [{ name := "SetLevel", parameters := [levelProperty] }] }

/-- The registry with the SetLevel lamp registered under id "lamp2". -/
def lamp2Registry : Registry := [("lamp2", { thing := lamp2Thing, inst := lamp2Instance })]

/-- A handler whose Ping operation declares the receiver plus one trailing
raw-payload parameter (NumIn = 2) for an action with zero parameters. -/
def padInstance : Instance :=
  { typeRepr := lampPtrT, initFn := fun t => t,
    methods := [("Ping", ⟨[lampPtrT, interfaceT]⟩)] }

/-- The thing for the payload handler: action "Ping" with no parameters. -/
def padThing : Thing :=
  { id := "pad1", name := "pad1", kind := "pad",
    actions := [{ name := "Ping", parameters := [] }] }

/-- The registry with the payload handler registered under id "pad1". -/
def padRegistry : Registry := [("pad1", { thing := padThing, inst := padInstance })]

/-- An instance whose dynamic type is a slice type (a non-pointer type for
which reflect Elem is nevertheless defined). -/
def sliceInstance : Instance :=
  { typeRepr := .container .slice_ "main.lamps" intT, initFn := fun t => t, methods := [] }

/-- An instance whose dynamic type is a plain struct (no Elem). -/
def weirdInstance : Instance :=
  { typeRepr := .base .struct_ "main.weird", initFn := fun t => t, methods := [] }

/-- A connector whose client was never created. -/
def demoConnectorNoClient : MqttConnector :=
  { DataTopic := "/deviot/_/gw/data", ActionTopic := "/deviot/_/gw/action",
    connectorServer := "tcp://broker:1883", client := none }

/-- A connector whose client exists but is currently disconnected. -/
def demoConnectorDisconnected : MqttConnector :=
  { DataTopic := "/deviot/_/gw/data", ActionTopic := "/deviot/_/gw/action",
    connectorServer := "tcp://broker:1883",
    client := some { connected := false, publishError := some "dropped" } }

/-- The gateway and connector built from a dashed name and an account with an
@ sign (host/port already parsed from the broker url). -/
def gwDemo : Gateway × MqttConnector :=
  match NewGateway "my-gw" "http://server" "tcp://broker:1883" "a@b.c" none "broker" 1883 with
  | .ok p => p
  | .error _ =>
    ({ Name := "", Kind := "", Host := "", Port := 0, Data := "", Action := "",
       Account := "", Mode := 0, Things := [], deviotServer := "" },
     { DataTopic := "", ActionTopic := "", connectorServer := "", client := none })


instance {ε α : Type} [DecidableEq ε] [DecidableEq α] : DecidableEq (Except ε α) :=
  fun a b =>
    match a, b with
    | .ok x, .ok y =>
      if h : x = y then .isTrue (by rw [h]) else .isFalse (by intro hx; cases hx; exact h rfl)
    | .error x, .error y =>
      if h : x = y then .isTrue (by rw [h]) else .isFalse (by intro hx; cases hx; exact h rfl)
    | .ok _, .error _ => .isFalse (by intro hx; cases hx)
    | .error _, .ok _ => .isFalse (by intro hx; cases hx)

/-- One heartbeat iteration logs exactly when it is the first iteration or the
stored registered state differs from the state read at the start. -/
theorem heartbeatStep_log_iff (first registered : Bool) (r : HeartbeatResult) :
    (heartbeatStep first registered r).1
      = (first || ((heartbeatStep first registered r).2 != registered)) := by
  cases r with
  | transportError => cases registered <;> cases first <;> rfl
  | response st =>
    by_cases h : 200 ≤ st ∧ st < 400
    · simp only [heartbeatStep, if_pos h]
      cases registered <;> cases first <;> rfl
    · simp only [heartbeatStep, if_neg h]
      cases registered <;> cases first <;> rfl

/-- Indexed form of the edge-triggered-logging property over a whole run of
the loop from an arbitrary (first, registered) state. -/
theorem heartbeatRunFrom_log_iff (rs : List HeartbeatResult) :
    ∀ (first registered : Bool) (i : Nat), i < rs.length →
      ((heartbeatRunFrom first registered rs).getD i (false, false)).1
        = ((decide (i = 0) && first)
            || (((heartbeatRunFrom first registered rs).getD i (false, false)).2
                 != (if i = 0 then registered
                     else ((heartbeatRunFrom first registered rs).getD (i - 1) (false, false)).2))) := by
  induction rs with
  | nil => intro first registered i h; simp at h
  | cons r rest ih =>
    intro first registered i h
    match i with
    | 0 =>
      simpa [heartbeatRunFrom] using heartbeatStep_log_iff first registered r
    | 1 =>
      have hj : 0 < rest.length := by simpa using h
      simpa [heartbeatRunFrom] using
        ih false (heartbeatStep first registered r).2 0 hj
    | (k + 2) =>
      have hj : k + 1 < rest.length := by
        simpa [Nat.succ_lt_succ_iff] using h
      simpa [heartbeatRunFrom] using
        ih false (heartbeatStep first registered r).2 (k + 1) hj

/-- Dash replacement is the identity on a name without a dash. -/
theorem sanitizeGatewayName_eq_self (s : String)
    (h : s.data.all (fun c => c != '-') = true) : sanitizeGatewayName s = s := by
  have hmap : ∀ l : List Char, l.all (fun c => c != '-') = true →
      l.map (fun c => if c = '-' then '_' else c) = l := by
    intro l hl
    induction l with
    | nil => rfl
    | cons c cs ih =>
      simp only [List.all_cons, Bool.and_eq_true] at hl
      have hc : ¬(c = '-') := by simpa using hl.1
      simp [if_neg hc, ih hl.2]
  show String.mk (s.data.map fun c => if c = '-' then '_' else c) = s
  rw [hmap s.data h]

/-- The kind option only ever touches the Kind field. -/
theorem applyKindOpt_fields (g : Gateway) (opts : Option Envelope) (g2 : Gateway)
    (h : applyKindOpt g opts = .ok g2) : g2.Name = g.Name ∧ g2.Account = g.Account := by
  cases opts with
  | none => cases h; exact ⟨rfl, rfl⟩
  | some o =>
    cases ho : o.lookup "kind" with
    | none => rw [applyKindOpt, ho] at h; cases h; exact ⟨rfl, rfl⟩
    | some v =>
      cases v <;> rw [applyKindOpt, ho] at h <;> cases h <;> exact ⟨rfl, rfl⟩

/-- C1 counterexample: in the scenario exactly as claimed (action declared as
"setOn", Instance operation "SetOn"), neither envelope invokes anything: the
method lookup uses the action string verbatim and is case-sensitive, so both
dispatches drop with a method-not-available log, refuting both invocation
claims. -/
theorem claim1_counterexample :
    CallAction lampRegistryOrig
        [("id", .goString "lamp1"), ("action", .goString "setOn"), ("on", .goBool true)]
      = .dropped .methodNotAvailable
  ∧ (CallAction lampRegistryOrig
        [("id", .goString "lamp1"), ("action", .goString "setOn"), ("on", .goBool true)]).isInvoked
      = false
  ∧ CallAction lampRegistryOrig
        [("id", .goString "lamp1"), ("action", .goString "setOn")]
      = .dropped .methodNotAvailable
  ∧ (CallAction lampRegistryOrig
        [("id", .goString "lamp1"), ("action", .goString "setOn")]).isInvoked
      = false := by
  refine ⟨by decide, by decide, by decide, by decide⟩

/-- C1 amended: with the action and operation both under the exported name
"SetOn" (the only spelling reflect method lookup can resolve), registering
lamp1 through Register yields the expected registry, and then: dispatching
with "on": true does not invoke the operation but aborts with a conversion
error, because Bool is not among the supported coercion target kinds of
convert; dispatching with the parameter absent invokes the operation exactly
once with the declared default on = false bound verbatim. -/
theorem claim1_amended_dispatch :
    Register ([] : Registry) "lamp1" "lamp1" lampInstanceAm
      = .ok ⟨lampRegistryAm, .registered "lamp1" "lamp1" "lamp", true⟩
  ∧ CallAction lampRegistryAm
        [("id", .goString "lamp1"), ("action", .goString "SetOn"), ("on", .goBool true)]
      = .dropped (.conversion (.unsupported boolT .bool_))
  ∧ CallAction lampRegistryAm
        [("id", .goString "lamp1"), ("action", .goString "SetOn")]
      = .invoked "SetOn" [.recv lampPtrT, .val (.goBool false)] := by
  refine ⟨by rfl, by decide, by decide⟩

/-- C2: the coercion function is total and deterministic (a Lean function
with an explicit two-way result, mirroring the recover-based error path of
the source); 7.0 to an int32 target gives 7; 7.0 to a string target gives
"7"; every target kind outside the supported set yields an error for every
value; a string value where a float64 is expected yields the recovered
type-assertion error; and a dispatch hitting such a conversion error drops
the message before any invocation. -/
theorem claim2_convert_total :
    (∀ (p : Int) (t : ReflType) (v : GoVal),
      (∃ r, convert p t v = .ok r) ∨ (∃ e, convert p t v = .error e))
  ∧ convert 0 int32T (.goFloat .float64 7) = .ok (.goInt .int32 7)
  ∧ convert 0 stringT (.goFloat .float64 7) = .ok (.goString "7")
  ∧ (∀ (p : Int) (t : ReflType) (v : GoVal), supportedConvertKind t.kind = false →
      ∃ e, convert p t v = .error e)
  ∧ (∀ (p : Int) (s : String),
      convert p int32T (.goString s) = .error (.typeAssertion .float64 .string_))
  ∧ CallAction lamp2Registry
        [("id", .goString "lamp2"), ("action", .goString "SetLevel"), ("level", .goString "high")]
      = .dropped (.conversion (.typeAssertion .float64 .string_)) := by
  refine ⟨?_, by decide, by decide, ?_, fun p s => rfl, by decide⟩
  · intro p t v
    cases h : convert p t v with
    | ok r => exact .inl ⟨r, rfl⟩
    | error e => exact .inr ⟨e, rfl⟩
  · intro p t v h
    cases t with
    | base k s =>
      cases k <;>
        first
          | exact ⟨_, rfl⟩
          | simp [supportedConvertKind, ReflType.kind] at h
    | container k s e =>
      cases k <;>
        first
          | exact ⟨_, rfl⟩
          | simp [supportedConvertKind, ReflType.kind] at h

/-- C2 witness: the unsupported-target conjunct applied at the Bool target
kind and a concrete value. -/
theorem claim2_convert_total_witness :
    supportedConvertKind boolT.kind = false
  ∧ ∃ e, convert 0 boolT (.goBool true) = .error e :=
  ⟨by decide, claim2_convert_total.2.2.2.1 0 boolT (.goBool true) (by decide)⟩

/-- C3 counterexample: an envelope whose id value is the JSON number 3 (hence
a float64, not a string) resolves to an id that is no registry key, yet the
dispatch neither logs-and-drops nor stays side-effect-free: the `id.(string)`
type assertion panics, refuting the only-logs claim at this input. -/
theorem claim3_counterexample :
    CallAction ([] : Registry) [("id", .goFloat .float64 3)] = .panicked .interfaceConversion
  ∧ (CallAction ([] : Registry) [("id", .goFloat .float64 3)]).isDropped = false
  ∧ (CallAction ([] : Registry) [("id", .goFloat .float64 3)]).isInvoked = false := by
  refine ⟨by decide, by decide, by decide⟩

/-- C3 amended: for every envelope and registry state, each of the six error
conditions makes the dispatch drop the message after only logging, with no
invocation and no state change, provided the envelope value for the resolved
id (and for the action, where the dispatch reaches it) is a string; a
non-string value there panics in a type assertion instead of logging.  The
model returns no registry from CallAction because the source never writes
one, and a dropped outcome carries nothing but the log line. -/
theorem claim3_amended_drop_cases :
    (∀ (things : Registry) (data : Envelope),
      resolveId data = none → CallAction things data = .dropped .idNotAvailable)
  ∧ (∀ (things : Registry) (data : Envelope) (s : String),
      resolveId data = some (.goString s) → things.lookup s = none →
      CallAction things data = .dropped .idNotAvailable)
  ∧ (∀ (things : Registry) (data : Envelope) (s : String) (w : wrapper),
      resolveId data = some (.goString s) → things.lookup s = some w →
      data.lookup "action" = none →
      CallAction things data = .dropped .actionNotAvailable)
  ∧ (∀ (things : Registry) (data : Envelope) (s : String) (w : wrapper) (a : String),
      resolveId data = some (.goString s) → things.lookup s = some w →
      data.lookup "action" = some (.goString a) → w.thing.FindAction a = none →
      CallAction things data = .dropped .actionNotAvailable)
  ∧ (∀ (things : Registry) (data : Envelope) (s : String) (w : wrapper) (a : String)
        (ad : Action),
      resolveId data = some (.goString s) → things.lookup s = some w →
      data.lookup "action" = some (.goString a) → w.thing.FindAction a = some ad →
      w.inst.MethodByName a = none →
      CallAction things data = .dropped .methodNotAvailable)
  ∧ (∀ (things : Registry) (data : Envelope) (s : String) (w : wrapper) (a : String)
        (ad : Action) (m : GoMethod),
      resolveId data = some (.goString s) → things.lookup s = some w →
      data.lookup "action" = some (.goString a) → w.thing.FindAction a = some ad →
      w.inst.MethodByName a = some m →
      m.ins.length ≠ ad.parameters.length + 1 → m.ins.length ≠ ad.parameters.length + 2 →
      CallAction things data = .dropped (.arityMismatch m.ins.length ad.parameters.length)) := by
  refine ⟨?_, ?_, ?_, ?_, ?_, ?_⟩
  · intro things data h1
    simp [CallAction, h1]
  · intro things data s h1 h2
    simp [CallAction, h1, h2]
  · intro things data s w h1 h2 h3
    simp [CallAction, dispatchToThing, h1, h2, h3]
  · intro things data s w a h1 h2 h3 h4
    simp [CallAction, dispatchToThing, dispatchResolved, h1, h2, h3, h4]
  · intro things data s w a ad h1 h2 h3 h4 h5
    simp [CallAction, dispatchToThing, dispatchResolved, h1, h2, h3, h4, h5]
  · intro things data s w a ad m h1 h2 h3 h4 h5 h6 h7
    simp [CallAction, dispatchToThing, dispatchResolved, h1, h2, h3, h4, h5]
    simp [dispatchWithMethod, h6, h7]

/-- C3 amended witness: the missing-id case at the empty registry and empty
envelope. -/
theorem claim3_amended_drop_cases_witness :
    CallAction ([] : Registry) ([] : Envelope) = .dropped .idNotAvailable :=
  claim3_amended_drop_cases.1 [] [] rfl

/-- C4: registering an id that is already a registry key changes nothing: the
same registry value is returned (so the original pair and the size are
retained), Init of the new instance never runs, and the only effect is the
already-registered notice; no error is returned. -/
theorem claim4_duplicate_register_noop (things : Registry) (id name : String)
    (inst : Instance) (w : wrapper) (h : things.lookup id = some w) :
    Register things id name inst = .ok ⟨things, .alreadyRegistered id, false⟩ := by
  simp [Register, h]

/-- C4 witness: re-registering lamp1 with a different name and a different
instance leaves the registry untouched. -/
theorem claim4_duplicate_register_noop_witness :
    Register lampRegistryOrig "lamp1" "other" lamp2Instance
      = .ok ⟨lampRegistryOrig, .alreadyRegistered "lamp1", false⟩ :=
  claim4_duplicate_register_noop lampRegistryOrig "lamp1" "other" lamp2Instance
    lampWrapperOrig rfl

/-- C5: for a dispatch whose target operation declares the receiver plus one
trailing raw-payload parameter (NumIn = len(parameters)+2), the code never
reaches the payload binding: the binding loop runs i = 1 .. NumIn-1 and
indexes Parameters[i-1], so it reads Parameters[len(parameters)] and panics
with an out-of-range slice index, with and without a payload entry in the
envelope.  The claim (and spec step 8, and the dead payload-binding block in
the source itself) say the payload is bound and the invocation takes place. -/
theorem claim5_payload_path_panics :
    CallAction padRegistry
        [("id", .goString "pad1"), ("action", .goString "Ping"), ("payload", .goString "hello")]
      = .panicked .indexOutOfRange
  ∧ CallAction padRegistry [("id", .goString "pad1"), ("action", .goString "Ping")]
      = .panicked .indexOutOfRange := by
  refine ⟨by decide, by decide⟩

/-- C6: over every run of the registration loop, iteration i logs exactly
when it is the first iteration or the stored registered state differs from
the state before the iteration (edge-triggered logging); in particular three
consecutive transport failures from the initial unregistered state log
exactly once (on the first iteration) and the following successful heartbeat
logs exactly once more. -/
theorem claim6_edge_triggered_logging :
    (∀ (rs : List HeartbeatResult) (i : Nat), i < rs.length →
      ((heartbeatRun rs).getD i (false, false)).1
        = (decide (i = 0)
            || (((heartbeatRun rs).getD i (false, false)).2 != regBefore rs i)))
  ∧ heartbeatRun [.transportError, .transportError, .transportError]
      = [(true, false), (false, false), (false, false)]
  ∧ heartbeatRun [.transportError, .transportError, .transportError, .response 200]
      = [(true, false), (false, false), (false, false), (true, true)] := by
  refine ⟨?_, by decide, by decide⟩
  intro rs i h
  simpa [heartbeatRun, regBefore] using heartbeatRunFrom_log_iff rs true false i h

/-- C6 witness: the indexed property at a one-failure run and index 0. -/
theorem claim6_edge_triggered_logging_witness :
    ((heartbeatRun [.transportError]).getD 0 (false, false)).1
      = (decide ((0 : Nat) = 0)
          || (((heartbeatRun [.transportError]).getD 0 (false, false)).2
               != regBefore [.transportError] 0)) :=
  claim6_edge_triggered_logging.1 [.transportError] 0 (by decide)

/-- C7: coercion never consults the declared Property type: for any two
declared types, any target type and any value, convert agrees; the parameter
is dead in the source body. -/
theorem claim7_param_type_ignored (p1 p2 : Int) (t : ReflType) (v : GoVal) :
    convert p1 t v = convert p2 t v := rfl

/-- C8: with no client or with a client that is not currently connected,
Publish sends nothing, drops the telemetry without queueing anywhere (the
model state has no queue and is returned unchanged by construction), and
returns success. -/
theorem claim8_publish_disconnected_noop (c : MqttConnector) (data : Envelope)
    (h : c.client = none ∨ ∃ cl, c.client = some cl ∧ cl.connected = false) :
    c.Publish data = (.noSend, none) := by
  rcases h with h | ⟨cl, hcl, hconn⟩
  · simp [MqttConnector.Publish, h]
  · simp [MqttConnector.Publish, hcl, hconn]

/-- C8 witness: a connector without a client, and one whose client is
disconnected with a pending token error that is consequently never
returned. -/
theorem claim8_publish_disconnected_noop_witness :
    demoConnectorNoClient.Publish [("temp", .goFloat .float64 21)] = (.noSend, none)
  ∧ demoConnectorDisconnected.Publish [("temp", .goFloat .float64 21)] = (.noSend, none) :=
  ⟨claim8_publish_disconnected_noop demoConnectorNoClient _ (Or.inl rfl),
   claim8_publish_disconnected_noop demoConnectorDisconnected _
     (Or.inr ⟨_, rfl, rfl⟩)⟩

/-- C9: construction replaces every dash in the gateway name with an
underscore before anything uses it: the stored Name, both derived topics (on
the gateway and on the connector), and the name field of the registration
document all carry the sanitised name, and a name without a dash is stored
unchanged. -/
theorem claim9_name_sanitized (name ds cs account : String) (opts : Option Envelope)
    (host : String) (port : Int) (g : Gateway) (c : MqttConnector)
    (h : NewGateway name ds cs account opts host port = .ok (g, c)) :
    g.Name = sanitizeGatewayName name
  ∧ g.Data = "/deviot/" ++ accountNamespace account ++ "/" ++ sanitizeGatewayName name ++ "/data"
  ∧ g.Action = "/deviot/" ++ accountNamespace account ++ "/" ++ sanitizeGatewayName name ++ "/action"
  ∧ c.DataTopic = g.Data
  ∧ c.ActionTopic = g.Action
  ∧ (buildRegistrationModel g).lookup "name" = some (.goString (sanitizeGatewayName name))
  ∧ (name.data.all (fun ch => ch != '-') = true → g.Name = name) := by
  rw [NewGateway] at h
  cases happ : applyKindOpt
      { Name := sanitizeGatewayName name, Kind := "device", Host := "", Port := 0,
        Data := "", Action := "", Account := account, Mode := GatewayModeMqtt,
        Things := [], deviotServer := ds } opts with
  | error p => rw [happ] at h; cases h
  | ok g2 =>
    rw [happ] at h
    obtain ⟨hN, hA⟩ := applyKindOpt_fields _ _ _ happ
    cases h
    refine ⟨?_, ?_, ?_, rfl, rfl, ?_, ?_⟩
    · simpa [NewMqttConnector] using hN
    · simp [NewMqttConnector, hN, hA]
    · simp [NewMqttConnector, hN, hA]
    · simp [buildRegistrationModel, NewMqttConnector, hN, List.lookup]
    · intro hnd
      simpa [NewMqttConnector, hN] using sanitizeGatewayName_eq_self name hnd

/-- C9 witness: the dashed demo name with an @-account, applied through the
constructed pair. -/
theorem claim9_name_sanitized_witness :
    gwDemo.1.Name = sanitizeGatewayName "my-gw"
  ∧ gwDemo.1.Data = "/deviot/" ++ accountNamespace "a@b.c" ++ "/"
      ++ sanitizeGatewayName "my-gw" ++ "/data"
  ∧ gwDemo.1.Action = "/deviot/" ++ accountNamespace "a@b.c" ++ "/"
      ++ sanitizeGatewayName "my-gw" ++ "/action"
  ∧ gwDemo.2.DataTopic = gwDemo.1.Data
  ∧ gwDemo.2.ActionTopic = gwDemo.1.Action
  ∧ (buildRegistrationModel gwDemo.1).lookup "name"
      = some (.goString (sanitizeGatewayName "my-gw"))
  ∧ ("my-gw".data.all (fun ch => ch != '-') = true → gwDemo.1.Name = "my-gw") :=
  claim9_name_sanitized "my-gw" "http://server" "tcp://broker:1883" "a@b.c" none
    "broker" 1883 gwDemo.1 gwDemo.2 rfl

/-- C10 counterexample: Register completes without panicking on an instance
whose dynamic type is a slice (a non-pointer type for which Elem is defined),
deriving the kind tag from the slice element type and storing the pair; and a
duplicate-id registration with a plain-struct (non-pointer) instance also
completes without panicking, refuting both directions of the claim. -/
theorem claim10_counterexample :
    Register ([] : Registry) "s1" "s1" sliceInstance
      = .ok ⟨[("s1", ⟨{ id := "s1", name := "s1", kind := "int" }, sliceInstance⟩)],
             .registered "s1" "s1" "int", true⟩
  ∧ Register lampRegistryOrig "lamp1" "x" weirdInstance
      = .ok ⟨lampRegistryOrig, .alreadyRegistered "lamp1", false⟩ :=
  ⟨rfl, rfl⟩

/-- C10 amended: the kind derivation dereferences the reflected type, so on a
fresh id Register panics before storing anything exactly when the dynamic
type kind of the Instance has no element type (not pointer, array, chan, map
or slice); with a pointer-kinded instance it always completes, and with an
already-registered id the reflection code is never reached, so no panic
occurs for any instance. -/
theorem claim10_amended_register_panics :
    (∀ (things : Registry) (id name : String) (inst : Instance),
      things.lookup id = none → elemKinds inst.typeRepr.kind = false →
      Register things id name inst = .error .elemOfNonContainer)
  ∧ (∀ (things : Registry) (id name : String) (inst : Instance),
      things.lookup id = none → inst.typeRepr.kind = .ptr →
      ∃ r, Register things id name inst = .ok r)
  ∧ (∀ (things : Registry) (id name : String) (inst : Instance) (w : wrapper),
      things.lookup id = some w →
      Register things id name inst = .ok ⟨things, .alreadyRegistered id, false⟩) := by
  refine ⟨?_, ?_, ?_⟩
  · intro things id name inst h1 h2
    simp [Register, h1, typeElem, h2]
  · intro things id name inst h1 h2
    have hElem : ∃ e, typeElem inst.typeRepr = .ok e := by
      cases hT : inst.typeRepr with
      | base k s =>
        rw [hT] at h2
        simp only [ReflType.kind] at h2
        subst h2
        exact ⟨_, rfl⟩
      | container k s e =>
        rw [hT] at h2
        simp only [ReflType.kind] at h2
        subst h2
        exact ⟨e, rfl⟩
    obtain ⟨e, he⟩ := hElem
    refine ⟨⟨things ++ [(id, ⟨inst.initFn
        { id := id, name := name, kind := afterLastDot (toLowerStr e.str),
          actions := [], properties := [] }, inst⟩)],
        .registered id name (afterLastDot (toLowerStr e.str)), true⟩, ?_⟩
    simp [Register, h1, he]
  · intro things id name inst w h
    simp [Register, h]

/-- C10 amended witness: the plain-struct instance panics on a fresh id, and
the pointer-typed lamp instance has a successful registration. -/
theorem claim10_amended_register_panics_witness :
    Register ([] : Registry) "w1" "w1" weirdInstance = .error .elemOfNonContainer
  ∧ ∃ r, Register ([] : Registry) "lampX" "lampX" lampInstanceAm = .ok r :=
  ⟨claim10_amended_register_panics.1 [] "w1" "w1" weirdInstance rfl rfl,
   claim10_amended_register_panics.2.1 [] "lampX" "lampX" lampInstanceAm rfl rfl⟩

end DevIoT
